import Mathlib

/-!
Verification of the byte-range read/write engine of the gcsfs
zonal/hierarchical-namespace extension.

The definitions below are shallow embeddings of the Python sources:
  - gcsfs/zb_hns_utils.py      (download_range, download_ranges)
  - gcsfs/zonal_adapter.py     (ZonalAdapter._async_mrd)
  - gcsfs/gcs_hns_filesystem.py (_process_limits, _cat_file, _mkdir,
                                 _get_storage_layout, gcs_file_types, _open)
Object contents are byte lists (`List Nat`); Python ints are `Int` where the
source can produce negative values, `Nat` where the value is a byte offset.
A backend transport is modelled as an explicit function argument (an oracle),
and "the backend raised" as an `Except.error` result, mirroring Python
exceptions.  Where the source performs I/O whose only observable effect is
which ranges were requested, the embedding returns the request list alongside
the data, so that "no backend call" is the statement that this list is empty.
-/

/-- Semantics of `AsyncMultiRangeDownloader.download_ranges` for one range, as
exercised by the repository's mock (`download_side_effect` writes
`file_data[offset : offset + length]` into the buffer) and as documented by
the comment in `download_range`: a requested length of 0 makes the mrd return
the bytes from `offset` to the end of the object. -/
def mrdDownload (data : List Nat) (offset len : Nat) : List Nat :=
  if len = 0 then data.drop offset
  else (data.drop offset).take len

/-- Embeds `zb_hns_utils.download_range(offset, length, mrd)`.  The Python
function returns `b""` immediately when `length == 0`; otherwise it issues
one `mrd.download_ranges([(offset, length, buffer)])` call and returns the
buffer's contents.  The second component is the list of (offset, length)
ranges handed to the mrd backend, so `[]` means no backend call was made. -/
def download_range (offset len : Nat) (data : List Nat) :
    List Nat × List (Nat × Nat) :=
  if len = 0 then ([], [])
  else (mrdDownload data offset len, [(offset, len)])

/-- Embeds the request computed by `ZonalAdapter._async_mrd`:
`offset = start` and `length = (end - start) + 1` (zonal_adapter.py lines
40-41). -/
def zonalMrdRequest (start finish : Int) : Int × Int :=
  (start, (finish - start) + 1)

/-- Embeds `ZonalAdapter._async_mrd(path, start, end)`.  The mrd transport is
the oracle `mrd : offset → length → Except String bytes`; `Except.error`
models `mrd.download_ranges` raising.  The Python body wraps the download in
`try ... except Exception as e: print(...)`, so on an exception the function
falls off the end and implicitly returns `None`, embedded here as `none`. -/
def zonalAsyncMrd (mrd : Int → Int → Except String (List Nat))
    (start finish : Int) : Option (List Nat) :=
  let req := zonalMrdRequest start finish
  match mrd req.1 req.2 with
  | .ok bs => some bs
  | .error _ => none

/-- Embeds `GCSHNSFileSystem._process_limits(start, end)` (the source comment
calls it a "Dummy method"): `None` start defaults to 0, `None` end defaults
to 100, and the returned pair is `(start, end - start + 1)`. -/
def process_limits (start finish : Option Int) : Int × Int :=
  let s := match start with
    | none => 0
    | some v => v
  let e := match finish with
    | none => 100
    | some v => v
  (s, e - s + 1)

/-- Embeds the backend-request view of `GCSHNSFileSystem._cat_file`: it
resolves `(start, end)` through `_process_limits` and passes the result to
`download_range`, which requests exactly that (offset, length) range from
the mrd unless the length is 0. -/
def catFileRequests (start finish : Option Int) : List (Int × Int) :=
  let p := process_limits start finish
  if p.2 = 0 then [] else [(p.1, p.2)]

/-- Embeds `BucketType` from gcs_hns_filesystem.py. -/
inductive BucketType
  | ZONAL_HIERARCHICAL
  | HIERARCHICAL
  | NON_HIERARCHICAL
  | UNKNOWN
deriving DecidableEq, Repr

/-- The file implementations that `gcs_file_types` maps to. -/
inductive FileImpl
  | zonalFile
  | gcsFile
deriving DecidableEq, Repr

/-- Embeds the `gcs_file_types` dict: keys are the four `BucketType` members
plus `None`; an absent key would be a Python `KeyError`, hence the `Option`
result. -/
def gcs_file_types : Option BucketType → Option FileImpl
  | some .ZONAL_HIERARCHICAL => some .zonalFile
  | some .HIERARCHICAL => some .gcsFile
  | some .NON_HIERARCHICAL => some .gcsFile
  | some .UNKNOWN => some .gcsFile
  | none => some .gcsFile

/-- Embeds the response of `GET b/{bucket}/storageLayout` as read by
`_get_storage_layout`: the `locationType` field and whether
`hierarchicalNamespace.enabled` is truthy. -/
structure StorageLayoutResponse where
  locationType : Option String
  hnsEnabled : Bool
deriving DecidableEq, Repr

/-- The python dict `self._storage_layout_cache`, as an association list. -/
def lookupCache : List (String × BucketType) → String → Option BucketType
  | [], _ => none
  | (k, v) :: rest, b => if k = b then some v else lookupCache rest b

/-- Embeds `GCSHNSFileSystem._get_storage_layout(bucket)`.  The backend call
is the oracle `backend`; `Except.error` models the `GET` raising.  Returns
the bucket type, the updated cache, and whether a backend call was made.
The body mirrors the source: a cache hit returns immediately; otherwise the
response is classified (`locationType == "zone"` first, then
`hierarchicalNamespace.enabled`, else non-hierarchical), any exception is
caught and classified as `UNKNOWN`, and the result is stored in the cache. -/
def getStorageLayout (cache : List (String × BucketType))
    (backend : String → Except String StorageLayoutResponse)
    (bucket : String) : BucketType × List (String × BucketType) × Bool :=
  match lookupCache cache bucket with
  | some t => (t, cache, false)
  | none =>
    match backend bucket with
    | .ok resp =>
      let t :=
        if resp.locationType = some "zone" then BucketType.ZONAL_HIERARCHICAL
        else if resp.hnsEnabled then BucketType.HIERARCHICAL
        else BucketType.NON_HIERARCHICAL
      (t, (bucket, t) :: cache, true)
    | .error _ =>
      (BucketType.UNKNOWN, (bucket, BucketType.UNKNOWN) :: cache, true)

/-- The classification the spec describes, stated independently so theorems
can compare the embedded code against it: ZONAL_HIERARCHICAL when
locationType is "zone", HIERARCHICAL when hierarchicalNamespace.enabled,
otherwise NON_HIERARCHICAL, and UNKNOWN when the query raises. -/
def layoutSpec : Except String StorageLayoutResponse → BucketType
  | .ok r =>
    if r.locationType = some "zone" then BucketType.ZONAL_HIERARCHICAL
    else if r.hnsEnabled then BucketType.HIERARCHICAL
    else BucketType.NON_HIERARCHICAL
  | .error _ => BucketType.UNKNOWN

/-- Errors the storage-control backend can raise in `_mkdir`. -/
inductive BackendErr
  | failedPrecondition (msg : String)
  | other (msg : String)
deriving DecidableEq, Repr

/-- The observable outcomes of `GCSHNSFileSystem._mkdir`. -/
inductive MkdirOutcome
  | success
  | fileNotFoundError (msg : String)
  | propagated (e : BackendErr)
  | delegatedToSuper
  | skippedExisting
deriving DecidableEq, Repr

/-- Embeds `GCSHNSFileSystem._mkdir(path, create_parents)` for a path with
bucket and key.  `keyEmpty` is whether the key part is empty (bucket-only
paths delegate to the superclass, as do non-HNS buckets); `pathExists` is
the `await self._exists(path)` result; `createFolder` is the control-plane
`create_folder` oracle, a function of the `recursive=create_parents` flag.
A `FailedPrecondition` from the backend is translated to `FileNotFoundError`
with the message built in the source; any other exception is re-raised. -/
def hns_mkdir (bucketType : BucketType) (keyEmpty pathExists createParents : Bool)
    (path : String) (createFolder : Bool → Except BackendErr Unit) :
    MkdirOutcome :=
  if keyEmpty then .delegatedToSuper
  else if bucketType = .ZONAL_HIERARCHICAL ∨ bucketType = .HIERARCHICAL then
    if pathExists then .skippedExisting
    else
      match createFolder createParents with
      | .ok _ => .success
      | .error (.failedPrecondition _) =>
        .fileNotFoundError
          ("Parent directory of " ++ path ++
            " does not exist and create_parents is False.")
      | .error e => .propagated e
  else .delegatedToSuper

/-- Modelled from the spec: the read-side file object (`ZonalFile`/`GCSFile`
and the fsspec buffered reader) is not under src/, only its tests are.  Spec
section 4.3: the reader holds the object bytes reachable through the cache
and a cursor `position`. -/
structure ReaderState where
  data : List Nat
  pos : Nat
deriving DecidableEq, Repr

/-- Modelled from the spec: `readline()` returns the bytes from the cursor up
to and including the next newline (byte 10), or the remainder at EOF without
a trailing newline, advancing the cursor past what was returned; `tell()`
reports the cursor. -/
def readlineStep (st : ReaderState) : List Nat × ReaderState :=
  let rest := st.data.drop st.pos
  match rest.findIdx? (fun b => b = 10) with
  | some i => (rest.take (i + 1), { st with pos := st.pos + i + 1 })
  | none => (rest, { st with pos := st.data.length })

/-- Modelled from the spec: `tell()` returns the current cursor. -/
def tellPos (st : ReaderState) : Nat := st.pos

/-- Modelled from the spec: the error raised by a second `finalize()`. -/
inductive UploadErr
  | alreadyFinalizedError
deriving DecidableEq, Repr

/-- Modelled from the spec: an append-stream write handle (`ZonalFile`'s
writer state is not under src/, only its tests are).  Spec section 4.4:
the handle tracks the acknowledged offset and whether the object has been
finalized. -/
structure AppendSession where
  bucketName : String
  objectName : String
  offset : Nat
  finalized : Bool
deriving DecidableEq, Repr

/-- Modelled from the spec: opening an append stream yields a fresh,
non-finalized handle at offset 0. -/
def openAppendSession (b o : String) : AppendSession :=
  { bucketName := b, objectName := o, offset := 0, finalized := false }

/-- Modelled from the spec: `finalize()` marks the object complete and is
terminal; a second `finalize()` fails with `AlreadyFinalizedError`. -/
def finalizeSession (s : AppendSession) : Except UploadErr AppendSession :=
  if s.finalized then .error .alreadyFinalizedError
  else .ok { s with finalized := true }

/-- The 13-byte object of the readline scenario (test_readline_from_cache_zb
and spec section 8): the ASCII bytes of "a,b\n11,22\n3,4". -/
def sampleData : List Nat :=
  [97, 44, 98, 10, 49, 49, 44, 50, 50, 10, 51, 44, 52]

/-- C1: the claim says every error of the zonal adapter's range-download path
propagates to the caller as a synchronous exception and no read returns None
after a failed download.  The code violates this: `_async_mrd` wraps the
download in a bare `except Exception` that prints the error and implicitly
returns `None`.  Evaluating the embedded code at the failing input of
test_mrd_exception_handling (a download that raises, here on the range
start=0, end=9) yields `none` — a non-exceptional result. -/
theorem async_mrd_swallows_error :
    zonalAsyncMrd (fun _ _ => .error "Test exception raised") 0 9 = none := rfl

/-- C2: the claim says `_process_limits` resolves negative bounds against the
object size, raises InvalidRangeError when the resolved end is below the
resolved start, and clamps an end beyond the size.  The embedded code (a
self-described "Dummy method") does none of this: on start=50, end=40 it
returns (50, -9) instead of raising, and on start=-10, end=None it returns
(-10, 111) without consulting any object size. -/
theorem process_limits_is_dummy :
    process_limits (some 50) (some 40) = (50, -9) ∧
    process_limits (some (-10)) none = (-10, 111) := by
  constructor <;> decide

/-- C3 counterexample: the claim says a range fetch with length 0 returns all
bytes from the offset to the end of the object.  On the 13-byte sample
object at offset 5, `download_range` returns `b""`, not the 8-byte to-end
suffix the mrd convention (`mrdDownload` with length 0) would give. -/
theorem download_range_zero_not_to_end :
    (download_range 5 0 sampleData).1 ≠ mrdDownload sampleData 5 0 := by
  decide

/-- C3 amended: a range fetch invoked with length 0 returns empty bytes and
issues no backend request; it does not read to the end of the object
(`download_range` special-cases length 0 precisely because the underlying
mrd would treat it as read-to-end). -/
theorem download_range_zero_empty (offset : Nat) (data : List Nat) :
    (download_range offset 0 data).1 = [] ∧
    (download_range offset 0 data).2 = [] :=
  ⟨rfl, rfl⟩

/-- C4: for every offset and object, a range download of length 0 returns the
empty byte string and hands no range to the mrd backend. -/
theorem download_range_zero_no_backend_call (offset : Nat) (data : List Nat) :
    download_range offset 0 data = ([], []) := rfl

/-- C6: on the 13-byte object b"a,b\n11,22\n3,4", three sequential readline
calls return b"a,b\n", b"11,22\n" and b"3,4", with tell() reporting 4, 10
and 13 after the respective calls. -/
theorem readline_scenario :
    (readlineStep { data := sampleData, pos := 0 }).1 = [97, 44, 98, 10] ∧
    tellPos (readlineStep { data := sampleData, pos := 0 }).2 = 4 ∧
    (readlineStep (readlineStep { data := sampleData, pos := 0 }).2).1 =
      [49, 49, 44, 50, 50, 10] ∧
    tellPos (readlineStep (readlineStep { data := sampleData, pos := 0 }).2).2 = 10 ∧
    (readlineStep (readlineStep
      (readlineStep { data := sampleData, pos := 0 }).2).2).1 = [51, 44, 52] ∧
    tellPos (readlineStep (readlineStep
      (readlineStep { data := sampleData, pos := 0 }).2).2).2 = 13 := by
  decide

/-- C7: on every append-stream write handle the first finalize succeeds and
marks the handle finalized (terminal), and a second finalize on the
resulting handle raises AlreadyFinalizedError. -/
theorem append_finalize_once_then_error (b o : String) :
    ∃ s1, finalizeSession (openAppendSession b o) = .ok s1 ∧
      s1.finalized = true ∧
      finalizeSession s1 = .error .alreadyFinalizedError :=
  ⟨_, rfl, rfl, rfl⟩

/-- Embeds the backend's write of one completed range in
`zb_hns_utils.download_ranges`: the range at input position `j` is written
into the buffer created for position `j`. -/
def backendWrite (data : List Nat) (ranges : List (Nat × Nat)) (j : Nat) :
    List Nat :=
  match ranges[j]? with
  | some p => mrdDownload data p.1 p.2
  | none => []

/-- Embeds the single `mrd.download_ranges(range_tuples)` call of
`download_ranges`: the backend completes ranges in an arbitrary order
(`order`, a list of input positions), writing each completed range into the
buffer bound to that position.  Buffers are a map from input position to
contents. -/
def runBackend (data : List Nat) (ranges : List (Nat × Nat))
    (order : List Nat) (bufs : Nat → List Nat) : Nat → List Nat :=
  order.foldl (fun b j => Function.update b j (backendWrite data ranges j)) bufs

/-- Embeds `zb_hns_utils.download_ranges(ranges, mrd)`: one empty buffer is
created per requested range, in input order; the backend fills them
(completion order `order`); the results are the buffer contents read back in
input order. -/
def download_ranges (data : List Nat) (ranges : List (Nat × Nat))
    (order : List Nat) : List (List Nat) :=
  let finalBufs := runBackend data ranges order (fun _ => [])
  (List.range ranges.length).map finalBufs

/-- After the backend has completed the positions in `order`, a buffer holds
the bytes of its own range if its position was completed, and its initial
contents otherwise. -/
lemma runBackend_apply (data : List Nat) (ranges : List (Nat × Nat))
    (order : List Nat) (bufs : Nat → List Nat) (i : Nat) :
    runBackend data ranges order bufs i =
      if i ∈ order then backendWrite data ranges i else bufs i := by
  induction order generalizing bufs with
  | nil => simp [runBackend]
  | cons j rest ih =>
    show runBackend data ranges rest (Function.update bufs j _) i = _
    rw [ih]
    by_cases hmem : i ∈ rest
    · simp [hmem]
    · by_cases hij : i = j
      · subst hij
        simp [hmem, Function.update_same]
      · simp [hmem, hij, Function.update_noteq hij]

/-- C5: for every non-empty request list and every backend completion order
(a permutation of the input positions), the batched download returns exactly
one result per request, positionally correlated to the input list: the i-th
result holds the bytes of the i-th requested range, whatever the completion
order. -/
theorem download_ranges_positional (data : List Nat)
    (ranges : List (Nat × Nat)) (order : List Nat)
    (_hne : ranges ≠ [])
    (hperm : List.Perm order (List.range ranges.length)) :
    download_ranges data ranges order =
      ranges.map (fun p => mrdDownload data p.1 p.2) := by
  apply List.ext_getElem
  · simp [download_ranges]
  · intro i h1 h2
    have hi : i < ranges.length := by
      simpa [download_ranges] using h1
    have hmem : i ∈ order := by
      rw [hperm.mem_iff, List.mem_range]
      exact hi
    simp only [download_ranges, List.getElem_map, List.getElem_range]
    rw [runBackend_apply]
    simp [hmem, backendWrite, List.getElem?_eq_getElem hi]

/-- C5 witness: a concrete two-range batch completed by the backend in
reverse order still returns the results in input order. -/
theorem download_ranges_positional_witness :
    download_ranges sampleData [(4, 6), (0, 4)] [1, 0] =
      [(4, 6), (0, 4)].map (fun p => mrdDownload sampleData p.1 p.2) :=
  download_ranges_positional sampleData [(4, 6), (0, 4)] [1, 0]
    (by decide) (by decide)

/-- C8: for every mkdir of a key inside a hierarchical-namespace or
zonal-hierarchical bucket whose parent folder does not exist (so the
control-plane `create_folder` raises FailedPrecondition, the case the source
ties to `create_parents=False`), the backend error is translated into
FileNotFoundError: the outcome is neither the propagated raw error nor a
silent success. -/
theorem hns_mkdir_translates_failed_precondition
    (bucketType : BucketType) (pathExists createParents : Bool)
    (path m : String) (createFolder : Bool → Except BackendErr Unit)
    (hbt : bucketType = .ZONAL_HIERARCHICAL ∨ bucketType = .HIERARCHICAL)
    (hex : pathExists = false)
    (hcf : createFolder createParents = .error (.failedPrecondition m)) :
    hns_mkdir bucketType false pathExists createParents path createFolder =
      .fileNotFoundError
        ("Parent directory of " ++ path ++
          " does not exist and create_parents is False.") := by
  subst hex
  rcases hbt with h | h <;> subst h <;> simp [hns_mkdir, hcf]

/-- C8 witness: a concrete hierarchical bucket with a missing parent and
`create_parents=False` yields FileNotFoundError. -/
theorem hns_mkdir_translates_failed_precondition_witness :
    hns_mkdir .HIERARCHICAL false false false "bkt/a/b"
        (fun _ => .error (.failedPrecondition "parent missing")) =
      .fileNotFoundError
        ("Parent directory of " ++ "bkt/a/b" ++
          " does not exist and create_parents is False.") :=
  hns_mkdir_translates_failed_precondition .HIERARCHICAL false false
    "bkt/a/b" "parent missing"
    (fun _ => .error (.failedPrecondition "parent missing"))
    (Or.inr rfl) rfl rfl

/-- C9: for every bucket not yet classified, the first storage-layout lookup
makes one backend call, classifies the response exactly as the claim states
(zone → ZONAL_HIERARCHICAL, hierarchicalNamespace.enabled → HIERARCHICAL,
otherwise NON_HIERARCHICAL, raised query → UNKNOWN), stores the result in
the per-instance cache, and every later lookup of the same bucket returns
the cached value with no backend call and leaves the cache unchanged,
whatever the backend would now answer; the classification never raises (it
is a total function into BucketType), and every BucketType is mapped by
`gcs_file_types` to a file implementation, so `_open` always selects one. -/
theorem storage_layout_cached_classification
    (cache : List (String × BucketType))
    (backend backendLater : String → Except String StorageLayoutResponse)
    (bucket : String) (bt : BucketType)
    (hmiss : lookupCache cache bucket = none) :
    (getStorageLayout cache backend bucket).2.2 = true ∧
    (getStorageLayout cache backend bucket).1 = layoutSpec (backend bucket) ∧
    lookupCache (getStorageLayout cache backend bucket).2.1 bucket =
      some (getStorageLayout cache backend bucket).1 ∧
    getStorageLayout (getStorageLayout cache backend bucket).2.1
        backendLater bucket =
      ((getStorageLayout cache backend bucket).1,
        (getStorageLayout cache backend bucket).2.1, false) ∧
    (gcs_file_types (some bt)).isSome = true := by
  cases hb : backend bucket with
  | ok resp =>
    refine ⟨?_, ?_, ?_, ?_, ?_⟩
    · simp [getStorageLayout, hmiss, hb]
    · simp [getStorageLayout, layoutSpec, hmiss, hb]
    · simp [getStorageLayout, lookupCache, hmiss, hb]
    · simp [getStorageLayout, lookupCache, hmiss, hb]
    · cases bt <;> simp [gcs_file_types]
  | error e =>
    refine ⟨?_, ?_, ?_, ?_, ?_⟩
    · simp [getStorageLayout, hmiss, hb]
    · simp [getStorageLayout, layoutSpec, hmiss, hb]
    · simp [getStorageLayout, lookupCache, hmiss, hb]
    · simp [getStorageLayout, lookupCache, hmiss, hb]
    · cases bt <;> simp [gcs_file_types]

/-- C9 witness: with an empty cache, a backend reporting a zonal location,
and a later backend that would raise, the concrete instance satisfies the
claim. -/
theorem storage_layout_cached_classification_witness :
    (getStorageLayout []
        (fun _ => .ok { locationType := some "zone", hnsEnabled := false })
        "bkt").2.2 = true ∧
    (getStorageLayout []
        (fun _ => .ok { locationType := some "zone", hnsEnabled := false })
        "bkt").1 =
      layoutSpec ((fun _ =>
        .ok { locationType := some "zone", hnsEnabled := false }) "bkt") ∧
    lookupCache (getStorageLayout []
        (fun _ => .ok { locationType := some "zone", hnsEnabled := false })
        "bkt").2.1 "bkt" =
      some (getStorageLayout []
        (fun _ => .ok { locationType := some "zone", hnsEnabled := false })
        "bkt").1 ∧
    getStorageLayout (getStorageLayout []
        (fun _ => .ok { locationType := some "zone", hnsEnabled := false })
        "bkt").2.1 (fun _ => .error "boom") "bkt" =
      ((getStorageLayout []
          (fun _ => .ok { locationType := some "zone", hnsEnabled := false })
          "bkt").1,
        (getStorageLayout []
          (fun _ => .ok { locationType := some "zone", hnsEnabled := false })
          "bkt").2.1, false) ∧
    (gcs_file_types (some BucketType.UNKNOWN)).isSome = true :=
  storage_layout_cached_classification []
    (fun _ => .ok { locationType := some "zone", hnsEnabled := false })
    (fun _ => .error "boom") "bkt" BucketType.UNKNOWN rfl

/-- C10: for every resolved pair of bounds with start at most end, the zonal
read path requests offset start and exactly (end - start) + 1 bytes — the
number of byte offsets in the inclusive interval [start, end] — and when
both bounds are unspecified the cat path hands the backend the single
request (0, 101), with no dependence on any object size. -/
theorem zonal_inclusive_range (s e : Int) (hse : s ≤ e) :
    zonalMrdRequest s e = (s, (e - s) + 1) ∧
    ((zonalMrdRequest s e).2).toNat = (Finset.Icc s e).card ∧
    catFileRequests none none = [(0, 101)] := by
  refine ⟨rfl, ?_, by decide⟩
  rw [Int.card_Icc]
  show ((e - s) + 1).toNat = (e + 1 - s).toNat
  omega

/-- C10 witness: the bounds (0, 100) request 101 bytes, the size of the
inclusive interval [0, 100]. -/
theorem zonal_inclusive_range_witness :
    zonalMrdRequest 0 100 = (0, (100 - 0) + 1) ∧
    ((zonalMrdRequest 0 100).2).toNat = (Finset.Icc (0 : Int) 100).card ∧
    catFileRequests none none = [(0, 101)] :=
  zonal_inclusive_range 0 100 (by decide)
